import Mathlib

/-!
Verification of the diadata trade-acquisition and aggregation core
against its natural-language specification.

Shallow embedding of:
- `pkg/dia/helpers/queryHelper/filters.go` (aggregation filter wrappers),
- `pkg/dia/nft/nftTrade-scrapers/x2y2.go` (acquisition loop, processTx,
  contract-creation binary search, NFT metadata reader, scraper lifecycle),
- `pkg/dia/scraper/exchange-scrapers/ZBScraper.go` (Bancor and Dforce swap
  normalization, GetPair, scraper Close lifecycles).

Go `float64` arithmetic is embedded as exact rational arithmetic (the claims
settled here concern structural/algebraic relationships between outputs, not
rounding). Machine integers are embedded as `Nat`/`Int`; Go nil-pointer
dereference and channel-close panics are embedded as `Option`/`none`.
-/

namespace Dia

/-- Canonical trade as consumed by the aggregation filters
(`dia.Trade`, fields relevant to the filters). -/
structure Trade where
  price : ℚ
  volume : ℚ
  time : ℤ
  deriving Repr, DecidableEq, Inhabited

/-- A trade block (`queryhelper.Block`): time stamp in nanoseconds plus the
trades of the block. -/
structure Block where
  TimeStamp : ℤ
  Trades : List Trade
  deriving Repr, DecidableEq, Inhabited

/-- One aggregated filter point (`dia.FilterPoint`, fields relevant here). -/
structure FilterPoint where
  Value : ℚ
  Time : ℤ
  FirstTrade : Trade
  LastTrade : Trade
  deriving Repr, DecidableEq, Inhabited

/-- `time.Unix(block.TimeStamp/1e9, 0)` of the source: the block timestamp
in seconds, by Go (truncating) integer division. -/
def blockTimeSec (b : Block) : ℤ := b.TimeStamp / 1000000000

/-- The zero value `dia.FilterPoint{}` that `FilterMA` initializes `lastfp`
with. -/
def zeroFilterPoint : FilterPoint :=
  { Value := 0, Time := 0, FirstTrade := default, LastTrade := default }

/-- The filter point produced for a non-empty block by the per-block filter
instance pipeline (`filters.NewFilterXX` / `Compute` / `FinalCompute` /
`FilterPointForBlock`), as the wrapper observes it after it sets
`FirstTrade`/`LastTrade`. The numeric value computed by the internal filter
(which lives in `internal/pkg/filtersBlockService`, outside the sources) is
abstracted into the parameter `v`; the wrappers under verification never
inspect it except for positivity. Its `Time` is the block end time handed to
`FinalCompute`. -/
def mkBlockPoint (v : Block → ℚ) (b : Block) : FilterPoint :=
  { Value := v b
    Time := blockTimeSec b
    FirstTrade := b.Trades.headD default
    LastTrade := b.Trades.getLastD default }

/-- Loop body of `queryhelper.FilterMA`: `lastfp` starts as a pointer to the
zero filter point; a non-empty block appends the freshly computed point (the
`fp != nil` test is always true); an empty block rewrites `lastfp.Time` to the
block's timestamp and appends a copy of `lastfp`. Appending `*fp` copies the
struct, so later mutations of the retained point do not alter appended
elements. -/
def filterMAGo (v : Block → ℚ) : List Block → List FilterPoint → FilterPoint →
    List FilterPoint
  | [], pts, _ => pts
  | b :: rest, pts, lastfp =>
    if b.Trades.isEmpty then
      let lastfp' := { lastfp with Time := blockTimeSec b }
      filterMAGo v rest (pts ++ [lastfp']) lastfp'
    else
      let fp := mkBlockPoint v b
      filterMAGo v rest (pts ++ [fp]) fp

/-- `queryhelper.FilterMA` (filters.go lines 13-50), emitted points only. -/
def FilterMA (v : Block → ℚ) (tradeBlocks : List Block) : List FilterPoint :=
  filterMAGo v tradeBlocks [] zeroFilterPoint

/-- Loop body shared by `queryhelper.FilterMAIR` and `queryhelper.FilterVWAP`:
`lastfp` starts as a nil pointer (`none`); a non-empty block sets the fresh
point's `Time` to the block timestamp, appends it and retains it; an empty
block dereferences `lastfp` unguarded — `none` here is the nil-pointer
dereference of the source. -/
def filterNilCarryGo (v : Block → ℚ) : List Block → List FilterPoint →
    Option FilterPoint → Option (List FilterPoint)
  | [], pts, _ => some pts
  | b :: rest, pts, lastfp =>
    if b.Trades.isEmpty then
      match lastfp with
      | none => none
      | some fp =>
        let fp' := { fp with Time := blockTimeSec b }
        filterNilCarryGo v rest (pts ++ [fp']) (some fp')
    else
      let fp := mkBlockPoint v b
      filterNilCarryGo v rest (pts ++ [fp]) (some fp)

/-- `queryhelper.FilterMAIR` (filters.go lines 51-88), emitted points only;
`none` models the nil-pointer dereference on an empty block with no prior
point. -/
def FilterMAIR (v : Block → ℚ) (tradeBlocks : List Block) :
    Option (List FilterPoint) :=
  filterNilCarryGo v tradeBlocks [] none

/-- `queryhelper.FilterVWAP` (filters.go lines 90-120), emitted points only;
`none` models the nil-pointer dereference on an empty block with no prior
point. -/
def FilterVWAP (v : Block → ℚ) (tradeBlocks : List Block) :
    Option (List FilterPoint) :=
  filterNilCarryGo v tradeBlocks [] none

/-- Loop body shared by `queryhelper.FilterVWAPIR` and `queryhelper.FilterMEDIR`:
`lastfp` starts nil; a non-empty block appends the fresh point only when its
value is positive, otherwise it carries the previous point forward (when one
exists); an empty block carries forward under a `lastfp != nil` guard, so a
leading empty block emits nothing. -/
def filterGuardedCarryGo (v : Block → ℚ) : List Block → List FilterPoint →
    Option FilterPoint → List FilterPoint
  | [], pts, _ => pts
  | b :: rest, pts, lastfp =>
    if b.Trades.isEmpty then
      match lastfp with
      | none => filterGuardedCarryGo v rest pts none
      | some fp =>
        let fp' := { fp with Time := blockTimeSec b }
        filterGuardedCarryGo v rest (pts ++ [fp']) (some fp')
    else
      let fp := mkBlockPoint v b
      if 0 < fp.Value then
        filterGuardedCarryGo v rest (pts ++ [fp]) (some fp)
      else
        match lastfp with
        | none => filterGuardedCarryGo v rest pts none
        | some l =>
          let l' := { l with Time := blockTimeSec b }
          filterGuardedCarryGo v rest (pts ++ [l']) (some l')

/-- `queryhelper.FilterVWAPIR` (filters.go lines 122-159), emitted points
only. -/
def FilterVWAPIR (v : Block → ℚ) (tradeBlocks : List Block) : List FilterPoint :=
  filterGuardedCarryGo v tradeBlocks [] none

/-- `queryhelper.FilterMEDIR` (filters.go lines 161-197), emitted points
only. -/
def FilterMEDIR (v : Block → ℚ) (tradeBlocks : List Block) : List FilterPoint :=
  filterGuardedCarryGo v tradeBlocks [] none

/-- Length of the leading run of empty trade blocks. -/
def leadEmptyLen (bs : List Block) : Nat :=
  (bs.takeWhile (fun b => b.Trades.isEmpty)).length

/-! ## X2Y2 on-chain acquisition loop (x2y2.go) -/

/-- The configuration fields of `X2Y2ScraperConfig` that `FetchTrades`
consults. `SkipOnErr` is carried because the spec claims behavior depends on
it. -/
structure X2Y2Conf where
  MaxRetry : Int
  SkipOnErr : Bool
  deriving Repr, DecidableEq

/-- `X2Y2ScraperState`: the persisted cursor and error counter. -/
structure X2Y2State where
  LastBlockNum : Nat
  LastTxIndex : Nat
  LastErr : String
  ErrCounter : Int
  deriving Repr, DecidableEq

/-- Outcome of one `processTx` call as the `FetchTrades` loop observes it:
either `ok skipped` (nil error, with the skipped flag), or a failure. -/
inductive ProcOutcome where
  | ok (skipped : Bool)
  | fail
  deriving Repr, DecidableEq

/-- One filtered transaction of the batch together with the outcome its
`processTx` call would produce. -/
structure SimTx where
  blockNum : Nat
  txIndex : Nat
  outcome : ProcOutcome
  deriving Repr, DecidableEq

/-- Result of one `FetchTrades` tick: the persisted state, the transactions
whose processing emitted a trade, the transactions logged
"SKIPPING PERMANENTLY", and whether the tick returned an error. -/
structure TickResult where
  state : X2Y2State
  emitted : List SimTx
  skippedPerm : List SimTx
  isErr : Bool
  deriving Repr, DecidableEq

/-- The per-transaction loop of `X2Y2Scraper.FetchTrades` (x2y2.go lines
325-364). For each tx the cursor is first moved onto the tx; on failure the
error counter is incremented and, while it stays within `MaxRetry`, the state
is persisted and the tick returns the error with the cursor still on the tx;
once the counter exceeds `MaxRetry` the tx is logged "SKIPPING PERMANENTLY"
and the loop falls through to the advance path. On any fall-through (success,
skip, or permanent skip) the counter is reset to 0 and the cursor moves past
the tx. Note the source never consults `SkipOnErr` on this path. -/
def fetchLoop (conf : X2Y2Conf) : List SimTx → X2Y2State → TickResult
  | [], st => { state := st, emitted := [], skippedPerm := [], isErr := false }
  | tx :: rest, st =>
    let st1 : X2Y2State :=
      { st with LastBlockNum := tx.blockNum, LastTxIndex := tx.txIndex,
                LastErr := "" }
    match tx.outcome with
    | .fail =>
      let st2 := { st1 with ErrCounter := st1.ErrCounter + 1 }
      if st2.ErrCounter ≤ conf.MaxRetry then
        { state := { st2 with LastErr := "unable to process trade transaction" }
          emitted := [], skippedPerm := [], isErr := true }
      else
        let st3 := { st2 with ErrCounter := 0, LastTxIndex := tx.txIndex + 1 }
        let r := fetchLoop conf rest st3
        { r with skippedPerm := tx :: r.skippedPerm }
    | .ok skipped =>
      let st3 := { st1 with ErrCounter := 0, LastTxIndex := tx.txIndex + 1 }
      let r := fetchLoop conf rest st3
      if skipped then r else { r with emitted := tx :: r.emitted }

/-- One `FetchTrades` tick (config/state already loaded, filter succeeded):
run the per-tx loop and, when it completes without error, advance the cursor
to `(res.LastBlockNum + 1, 0)` (x2y2.go lines 366-376). -/
def fetchTradesTick (conf : X2Y2Conf) (st : X2Y2State) (txs : List SimTx)
    (resLastBlockNum : Nat) : TickResult :=
  let r := fetchLoop conf txs st
  if r.isErr then r
  else { r with state := { r.state with LastBlockNum := resLastBlockNum + 1,
                                        LastTxIndex := 0 } }

/-! ## X2Y2 processTx (x2y2.go lines 379-456) -/

/-- One parsed ERC-721 transfer (`x2y2ERC721Transfer`, identity only). -/
structure TransferSim where
  nftAddress : Nat
  tokenId : Nat
  deriving Repr, DecidableEq, Inhabited

/-- The environment one `processTx` call runs against: which of its external
steps succeed, and the list of ERC-721 transfers `findERC721Transfers`
parses from the receipt (that helper itself never returns an error: every
failing log is skipped with `continue`). -/
structure TxEnv where
  decodeOk : Bool
  txFetchOk : Bool
  pending : Bool
  receiptOk : Bool
  currencyIsZero : Bool
  erc20Ok : Bool
  transfers : List TransferSim
  priceOk : Bool
  notifyOk : Bool
  deriving Repr, DecidableEq

/-- `X2Y2Scraper.processTx`: `Except` error mirrors a non-nil Go error; an
`ok` result carries the skipped flag and the trade sent to the channel, if
any. The skip policy sits between receipt scanning and price computation:
zero transfers or more than one transfer yield `ok (true, none)`. -/
def processTx (env : TxEnv) : Except Unit (Bool × Option TransferSim) :=
  if !env.decodeOk then .error () else
  if !env.txFetchOk then .error () else
  if env.pending then .error () else
  if !env.receiptOk then .error () else
  if !env.currencyIsZero && !env.erc20Ok then .error () else
  if env.transfers.length == 0 then .ok (true, none) else
  if env.transfers.length > 1 then .ok (true, none) else
  if !env.priceOk then .error () else
  if !env.notifyOk then .error () else
  .ok (false, some (env.transfers.headD default))

/-! ## X2Y2 contract-creation binary search (x2y2.go lines 621-697) -/

/-- The `for lo <= hi` loop of `findContractCreationInfo`. `codeAt n = true`
embeds `len(code) != 0` at block `n`. Following the source exactly:
`blockNum = (lo+hi)/2`; empty code moves `lo` up to `blockNum`, non-empty
code moves `hi` down to `blockNum`; when `hi == lo+1` the loop breaks with
`blockNum = hi`. The loop guard `lo <= hi` can never become false from inside
(`lo` only grows to a midpoint `≤ hi`, `hi` only shrinks to a midpoint
`≥ lo`), so the loop in the source either breaks or runs forever; the fuel
argument makes this a total function, with `none` standing for
non-termination within the given fuel. -/
def bsearchLoop (codeAt : Nat → Bool) : Nat → Nat → Nat → Option Nat
  | 0, _, _ => none
  | fuel + 1, lo, hi =>
    if lo ≤ hi then
      match codeAt ((lo + hi) / 2) with
      | false =>
        if hi = (lo + hi) / 2 + 1 then some hi
        else bsearchLoop codeAt fuel ((lo + hi) / 2) hi
      | true =>
        if (lo + hi) / 2 = lo + 1 then some ((lo + hi) / 2)
        else bsearchLoop codeAt fuel lo ((lo + hi) / 2)
    else some ((lo + hi) / 2)

/-- One transaction of the creation-candidate block: whether its recipient is
nil (contract creation), the contract address of its receipt, and its
recovered sender. Addresses are abstract `Nat` identifiers with `0` embedding
the zero address/value. -/
structure BlockTxSim where
  toIsNil : Bool
  receiptContract : Nat
  sender : Nat
  deriving Repr, DecidableEq

/-- The receipt scan over the selected block's transactions (x2y2.go lines
672-694): skip transactions with a recipient, take the first whose receipt's
contract address equals the target, and return its sender with the block
time; with no match, fall out returning the zero values and no error. -/
def findCreationInBlock (target : Nat) (blockTime : Int)
    (txs : List BlockTxSim) : Nat × Int :=
  match txs.find? (fun t => t.toIsNil && t.receiptContract == target) with
  | some t => (t.sender, blockTime)
  | none => (0, 0)

/-- `X2Y2Scraper.findContractCreationInfo`: zero values immediately when
`UseArchiveNode` is unset; otherwise run the binary search from
`lo = 0, hi = head` and scan the selected block. `none` stands for the
source's loop not terminating within the fuel. -/
def findContractCreationInfo (useArchiveNode : Bool) (head : Nat)
    (codeAt : Nat → Bool) (blockTxs : Nat → List BlockTxSim)
    (blockTime : Nat → Int) (target : Nat) (fuel : Nat) : Option (Nat × Int) :=
  if !useArchiveNode then some (0, 0)
  else
    match bsearchLoop codeAt fuel 0 head with
    | none => none
    | some b => some (findCreationInBlock target (blockTime b) (blockTxs b))

/-! ## X2Y2 readNFTAttr (x2y2.go lines 821-866) -/

/-- How the JSON decode target is passed, the detail the `data:` branch of the
source gets wrong: `json.Unmarshal(data.Data, attrs)` passes the map by
value, while the HTTP branch's `Decode(&attrs)` passes a pointer. -/
inductive UnmarshalTarget where
  | mapValue
  | pointerToMap
  deriving Repr, DecidableEq

/-- `encoding/json` unmarshalling into a `map[string]interface{}` target:
a target that is not a non-nil pointer yields `InvalidUnmarshalError`
regardless of the payload; through a pointer, a payload that is a valid JSON
object decodes into the map. Payloads are abstracted to their validity plus
the key/value pairs a valid object decodes to. -/
def jsonUnmarshal (payloadValid : Bool) (kvs : List (String × String)) :
    UnmarshalTarget → Except String (List (String × String))
  | .mapValue => .error "json: Unmarshal(non-pointer map)"
  | .pointerToMap =>
    if payloadValid then .ok kvs else .error "invalid json payload"

/-- A token URI as `readNFTAttr` classifies it, with the outcomes of the
external steps: for a `data:` URI, whether `dataurl.DecodeString` succeeds and
what the payload holds; for an HTTP URI, whether the request succeeds, the
status code, and the (size-capped) body. -/
inductive UriSim where
  | empty
  | ipfs
  | dataUri (decodeOk : Bool) (payloadValid : Bool) (kvs : List (String × String))
  | httpUri (requestOk : Bool) (statusCode : Nat) (payloadValid : Bool)
      (kvs : List (String × String))
  deriving Repr, DecidableEq

/-- `X2Y2Scraper.readNFTAttr`: empty and `ipfs://` URIs return `(nil, nil)`;
a `data:` URI is decoded and unmarshalled with the map passed by value
(`json.Unmarshal(data.Data, attrs)` in the source); an HTTP URI is fetched
and decoded through a pointer (`Decode(&attrs)`). An `ok none` is the
source's `(nil, nil)` return; `ok (some m)` returns the decoded map. -/
def readNFTAttr : UriSim → Except String (Option (List (String × String)))
  | .empty => .ok none
  | .ipfs => .ok none
  | .dataUri decodeOk payloadValid kvs =>
    if !decodeOk then .error "dataurl decode error" else
    match jsonUnmarshal payloadValid kvs .mapValue with
    | .error e => .error e
    | .ok m => .ok (some m)
  | .httpUri requestOk statusCode payloadValid kvs =>
    if !requestOk then .error "http request error" else
    if statusCode < 200 || statusCode > 299 then
      .error "unable to read token attributes" else
    match jsonUnmarshal payloadValid kvs .pointerToMap with
    | .error e => .error e
    | .ok m => .ok (some m)

/-! ## Scraper Close lifecycles (ZBScraper.go, x2y2.go) -/

/-- A Go channel's closed flag; `closeChan` embeds the `close` builtin, whose
application to an already-closed channel panics (`none`). -/
def closeChan : Bool → Option Bool
  | true => none
  | false => some true

/-- The lifecycle flags shared by the scraper close paths: the `closed` field
(set by the cleanup/producer exit path) and the closed-ness of the `shutdown`
channel. -/
structure ScraperLife where
  closed : Bool
  shutdownClosed : Bool
  deriving Repr, DecidableEq

/-- `ZBScraper.Close` (ZBScraper.go lines 169-184): guarded by `closed`;
otherwise closes `shutdown`, closes the websocket, and blocks on
`<-shutdownDone`, which the read loop's `cleanup` closes after setting
`closed = true` — so when `Close` returns, `closed` holds. The result is
`(state after the call, returned error)`; `none` is a panic. -/
def ZBClose (err : Option String) (s : ScraperLife) :
    Option (ScraperLife × Option String) :=
  if s.closed then some (s, some "ZBScraper: Already closed")
  else
    match closeChan s.shutdownClosed with
    | none => none
    | some sc => some ({ closed := true, shutdownClosed := sc }, err)

/-- `BancorScraper.Close` (ZBScraper.go lines 837-847): no `closed` guard; it
unconditionally closes `shutdown` and blocks on `<-shutdownDone` (closed by
`cleanup`, which sets `closed = true`), returning nil. A second call reaches
`close(scraper.shutdown)` with the channel already closed. -/
def BancorClose (s : ScraperLife) : Option (ScraperLife × Option String) :=
  match closeChan s.shutdownClosed with
  | none => none
  | some sc => some ({ closed := true, shutdownClosed := sc }, none)

/-- `X2Y2Scraper.Close` (x2y2.go lines 610-618): guarded by
`tradeScraper.closed`; otherwise closes `shutdown` and returns nil without
waiting — `closed` is set later by `mainLoop`'s deferred cleanup. -/
def X2Y2Close (s : ScraperLife) : Option (ScraperLife × Option String) :=
  if s.closed then some (s, some "scraper already closed")
  else
    match closeChan s.shutdownClosed with
    | none => none
    | some sc => some ({ s with shutdownClosed := sc }, none)

/-- The deferred cleanup of `X2Y2Scraper.mainLoop` (x2y2.go lines 253-258),
run once the producer observes the shutdown signal: it sets `closed = true`
and closes the trade channel. -/
def X2Y2MainLoopExit (s : ScraperLife) : ScraperLife :=
  { s with closed := true }

/-! ## Bancor and Dforce swap normalization (ZBScraper.go) -/

/-- The two amount fields of `BancorSwap` after `normalizeSwap`. -/
structure BancorSwapSim where
  FromAmount : ℚ
  ToAmount : ℚ
  deriving Repr, DecidableEq

/-- The amount part of `BancorScraper.normalizeSwap` (ZBScraper.go lines
500-543): each raw on-chain amount is divided by `10^decimals` of its token
(the pseudo-native sentinel side uses 18). -/
def normalizeSwap (fromAmountRaw toAmountRaw : ℤ) (fromDecimals toDecimals : Nat) :
    BancorSwapSim :=
  { FromAmount := (fromAmountRaw : ℚ) / 10 ^ fromDecimals
    ToAmount := (toAmountRaw : ℚ) / 10 ^ toDecimals }

/-- `BancorScraper.getSwapData` (ZBScraper.go lines 545-549), returning
`(price, volume)`: `volume = swap.FromAmount`,
`price = swap.ToAmount / swap.FromAmount`. -/
def getSwapData (swap : BancorSwapSim) : ℚ × ℚ :=
  (swap.ToAmount / swap.FromAmount, swap.FromAmount)

/-- `DforceScraper.getSwapDataDforce` (ZBScraper.go lines 1153-1174),
returning `(price, volume)`: the input (sold) and output (bought) raw amounts
are each divided by their token's `10^decimals`, then `volume = amountOut`
and `price = amountIn / amountOut`. -/
def getSwapDataDforce (inputAmount outputAmount : ℤ)
    (sellDecimals buyDecimals : Nat) : ℚ × ℚ :=
  let amountOut : ℚ := (outputAmount : ℚ) / 10 ^ buyDecimals
  let amountIn : ℚ := (inputAmount : ℚ) / 10 ^ sellDecimals
  (amountIn / amountOut, amountOut)

/-! ## BancorScraper.GetPair (ZBScraper.go lines 738-789) -/

/-- The pseudo-native sentinel address `0xEeee…EEeE`. -/
def sentinelAddr : String := "0xEeeeeEeeeEeEeeEeEeEeeEEEeeeeEeeeeeeeEEeE"

/-- The wrapped-native (WETH) address the sentinel is rewritten to. -/
def wethAddr : String := "0xC02aaA39b223FE8D0A0e5C4F27eAD9083C756Cc2"

/-- `dia.Asset`, the fields `GetPair` fills. -/
structure Asset where
  Symbol : String
  Address : String
  deriving Repr, DecidableEq

/-- `dia.ExchangePair`, the fields `GetPair` fills. -/
structure ExchangePair where
  ForeignName : String
  Symbol : String
  Exchange : String
  BaseToken : Asset
  QuoteToken : Asset
  deriving Repr, DecidableEq

/-- `BancorScraper.GetPair` on a two-element address list, with the on-chain
symbol lookup abstracted into `symbolOf`. Mirrors the source's in-place
updates of the `address` slice: the first sentinel test rewrites `address[0]`
and sets `symbol0 = "WETH"`; the second sentinel test (on `address[1]`) again
rewrites `address[0]` — not `address[1]` — and sets `symbol1 = "WETH"`. The
base token is built from `symbol1` and `address[1]`, the quote token from
`symbol0` and `address[0]` as they stand after both tests. -/
def GetPair (symbolOf : String → String) (exchangeName : String)
    (a0 a1 : String) : ExchangePair :=
  let p0 := if a0 = sentinelAddr then (wethAddr, "WETH") else (a0, symbolOf a0)
  let p1 := if a1 = sentinelAddr then (wethAddr, "WETH") else (p0.1, symbolOf a1)
  { ForeignName := p0.2 ++ "-" ++ p1.2
    Symbol := p0.2
    Exchange := exchangeName
    BaseToken := { Symbol := p1.2, Address := a1 }
    QuoteToken := { Symbol := p0.2, Address := p1.1 } }

/-! # Helper lemmas -/

/-- `FilterMA`'s loop appends exactly one point per input block, whatever the
blocks hold: its carried point starts non-nil, so empty blocks also emit. -/
theorem filterMAGo_length (v : Block → ℚ) :
    ∀ (bs : List Block) (pts : List FilterPoint) (fp : FilterPoint),
      (filterMAGo v bs pts fp).length = pts.length + bs.length := by
  intro bs
  induction bs with
  | nil => intro pts fp; rfl
  | cons b rest ih =>
    intro pts fp
    cases hb : b.Trades.isEmpty <;>
      simp only [filterMAGo, hb, Bool.false_eq_true, if_false, if_true, ih,
        List.length_append, List.length_cons, List.length_nil] <;>
      omega

/-- Once the guarded-carry loop holds a previous point, it appends exactly
one point per remaining block, provided every non-empty block computes a
positive value. -/
theorem filterGuardedCarryGo_some_length (v : Block → ℚ) :
    ∀ (bs : List Block) (pts : List FilterPoint) (fp : FilterPoint),
      (∀ b ∈ bs, b.Trades.isEmpty = false → 0 < v b) →
      (filterGuardedCarryGo v bs pts (some fp)).length = pts.length + bs.length := by
  intro bs
  induction bs with
  | nil => intro pts fp _; rfl
  | cons b rest ih =>
    intro pts fp h
    have hrest : ∀ b ∈ rest, b.Trades.isEmpty = false → 0 < v b :=
      fun x hx => h x (List.mem_cons_of_mem b hx)
    cases hb : b.Trades.isEmpty with
    | true =>
      simp only [filterGuardedCarryGo, hb, if_true, ih _ _ hrest,
        List.length_append, List.length_cons, List.length_nil]
      omega
    | false =>
      have hv : 0 < (mkBlockPoint v b).Value := h b (List.mem_cons_self b rest) hb
      simp only [filterGuardedCarryGo, hb, Bool.false_eq_true, if_false, hv,
        if_true, ih _ _ hrest, List.length_append, List.length_cons,
        List.length_nil]
      omega

/-- The guarded-carry loop with no previous point emits nothing for leading
empty blocks and one point per block thereafter (under positive computed
values). -/
theorem filterGuardedCarry_length (v : Block → ℚ) :
    ∀ bs : List Block, (∀ b ∈ bs, b.Trades.isEmpty = false → 0 < v b) →
      (filterGuardedCarryGo v bs [] none).length = bs.length - leadEmptyLen bs := by
  intro bs
  induction bs with
  | nil => intro _; rfl
  | cons b rest ih =>
    intro h
    have hrest : ∀ b ∈ rest, b.Trades.isEmpty = false → 0 < v b :=
      fun x hx => h x (List.mem_cons_of_mem b hx)
    cases hb : b.Trades.isEmpty with
    | true =>
      simp only [filterGuardedCarryGo, hb, if_true, leadEmptyLen,
        List.takeWhile_cons, List.length_cons]
      have := ih hrest
      simp only [leadEmptyLen] at this
      omega
    | false =>
      have hv : 0 < (mkBlockPoint v b).Value := h b (List.mem_cons_self b rest) hb
      simp only [filterGuardedCarryGo, hb, Bool.false_eq_true, if_false, hv,
        if_true, leadEmptyLen, List.takeWhile_cons, List.length_cons,
        List.length_nil]
      rw [filterGuardedCarryGo_some_length v rest _ _ hrest]
      simp only [List.length_append, List.length_cons, List.length_nil]
      omega

/-- The per-transaction loop of `FetchTrades` reads only `MaxRetry` from the
configuration: its result does not depend on `SkipOnErr`. -/
theorem fetchLoop_skipOnErr_irrelevant (mr : Int) (x y : Bool) :
    ∀ (txs : List SimTx) (st : X2Y2State),
      fetchLoop ⟨mr, x⟩ txs st = fetchLoop ⟨mr, y⟩ txs st := by
  intro txs
  induction txs with
  | nil => intro st; rfl
  | cons tx rest ih =>
    intro st
    cases tx.outcome with
    | fail => simp only [fetchLoop]; split <;> simp [ih]
    | ok skipped => simp only [fetchLoop, ih]

/-- If the per-transaction loop falls through without returning an error, the
error counter it leaves behind is 0 unless the batch was empty: every advance
(successful `processTx` or permanent skip) resets it. -/
theorem fetchLoop_errCounter_aux (conf : X2Y2Conf) :
    ∀ (txs : List SimTx) (st : X2Y2State),
      (fetchLoop conf txs st).isErr = false →
      (fetchLoop conf txs st).state.ErrCounter
        = if txs.isEmpty then st.ErrCounter else 0 := by
  intro txs
  induction txs with
  | nil => intro st _; rfl
  | cons tx rest ih =>
    intro st hok
    cases htx : tx.outcome with
    | fail =>
      simp only [fetchLoop, htx] at hok ⊢
      by_cases hcond : st.ErrCounter + 1 ≤ conf.MaxRetry
      · rw [if_pos hcond] at hok
        simp at hok
      · rw [if_neg hcond] at hok ⊢
        simp only at hok ⊢
        rw [ih _ hok]
        simp only [List.isEmpty_cons]
        split <;> rfl
    | ok skipped =>
      simp only [fetchLoop, htx] at hok ⊢
      cases skipped <;>
        simp only [Bool.false_eq_true, if_false, if_true] at hok ⊢ <;>
        rw [ih _ hok] <;> simp only [List.isEmpty_cons] <;>
        split <;> rfl

/-- Specialization of `fetchLoop_errCounter_aux` to a non-empty batch. -/
theorem fetchLoop_ok_errCounter (conf : X2Y2Conf) (txs : List SimTx)
    (st : X2Y2State) (hne : txs ≠ [])
    (hok : (fetchLoop conf txs st).isErr = false) :
    (fetchLoop conf txs st).state.ErrCounter = 0 := by
  have h := fetchLoop_errCounter_aux conf txs st hok
  cases txs with
  | nil => exact absurd rfl hne
  | cons a l => simpa using h

/-- A monotone `codeAt` with boundary at `b` is the indicator of `b ≤ ·`. -/
theorem codeAt_boundary_char {codeAt : Nat → Bool} {b : Nat}
    (hmono : ∀ x y, x ≤ y → codeAt x = true → codeAt y = true)
    (hb : codeAt b = true) (hb0 : codeAt (b - 1) = false) (hb1 : 1 ≤ b) :
    ∀ x, codeAt x = decide (b ≤ x) := by
  intro x
  by_cases h : b ≤ x
  · rw [hmono b x h hb]
    simp [h]
  · cases hcx : codeAt x with
    | false => simp [h]
    | true =>
      have : codeAt (b - 1) = true := hmono x (b - 1) (by omega) hcx
      rw [hb0] at this
      exact absurd this (by simp)

/-- The binary-search loop, run on the indicator of `b ≤ ·` from a bracket
`lo < b ≤ hi` with fuel at least the bracket width, terminates with `b`. -/
theorem bsearchLoop_finds {codeAt : Nat → Bool} {b : Nat}
    (hchar : ∀ x, codeAt x = decide (b ≤ x)) :
    ∀ (fuel lo hi : Nat), lo < b → b ≤ hi → hi - lo ≤ fuel + 1 →
      bsearchLoop codeAt (fuel + 1) lo hi = some b := by
  intro fuel
  induction fuel with
  | zero =>
    intro lo hi hlo hhi hgap
    have hhi1 : hi = lo + 1 := by omega
    subst hhi1
    have hmid : (lo + (lo + 1)) / 2 = lo := by omega
    have hcode : codeAt ((lo + (lo + 1)) / 2) = false := by
      rw [hchar]
      simp only [decide_eq_false_iff_not]
      omega
    have hb : b = lo + 1 := by omega
    have hcode0 : codeAt lo = false := by rw [← hmid]; exact hcode
    simp only [bsearchLoop, if_pos (show lo ≤ lo + 1 by omega), hmid, hcode0,
      eq_self_iff_true, if_true, hb]
  | succ fuel ih =>
    intro lo hi hlo hhi hgap
    have hle : lo ≤ hi := by omega
    cases hcode : codeAt ((lo + hi) / 2) with
    | true =>
      have hbmid : b ≤ (lo + hi) / 2 := by
        have h := hchar ((lo + hi) / 2)
        rw [hcode] at h
        exact of_decide_eq_true h.symm
      by_cases hbr : (lo + hi) / 2 = lo + 1
      · have hb : b = lo + 1 := by omega
        have hcode1 : codeAt (lo + 1) = true := by rw [← hbr]; exact hcode
        simp only [bsearchLoop, if_pos hle, hbr, hcode1, eq_self_iff_true,
          if_true, hb]
      · simp only [bsearchLoop, if_pos hle, hcode, if_neg hbr]
        exact ih lo ((lo + hi) / 2) hlo hbmid (by omega)
    | false =>
      have hmidb : (lo + hi) / 2 < b := by
        have h := hchar ((lo + hi) / 2)
        rw [hcode] at h
        have h2 := of_decide_eq_false h.symm
        omega
      by_cases hbr : hi = (lo + hi) / 2 + 1
      · have hb : b = hi := by omega
        simp only [bsearchLoop, if_pos hle, hcode, if_pos hbr, hb]
      · simp only [bsearchLoop, if_pos hle, hcode, if_neg hbr]
        exact ih ((lo + hi) / 2) hi hmidb hhi (by omega)

/-! # Claim theorems -/

/-- C1: `FetchTrades` does not implement the claimed `skip_on_error`
distinction. The per-tick behavior is identical for `SkipOnErr = false` and
`SkipOnErr = true`; in particular, with `SkipOnErr` unset, `MaxRetry = 0` and
a transaction at cursor `(100, 0)` whose `processTx` fails, the tick still
skips permanently: it logs the skip, emits nothing, advances the cursor past
the transaction to `(101, 0)` and returns no error, instead of being fatal
with the cursor held at the transaction. -/
theorem fetchTrades_ignores_skipOnErr :
    (∀ (mr : Int) (st : X2Y2State) (txs : List SimTx) (lb : Nat),
        fetchTradesTick ⟨mr, false⟩ st txs lb = fetchTradesTick ⟨mr, true⟩ st txs lb)
    ∧ fetchTradesTick ⟨0, false⟩ ⟨100, 0, "", 0⟩ [⟨100, 0, .fail⟩] 100
        = { state := ⟨101, 0, "", 0⟩, emitted := [],
            skippedPerm := [⟨100, 0, .fail⟩], isErr := false } := by
  constructor
  · intro mr st txs lb
    simp only [fetchTradesTick, fetchLoop_skipOnErr_irrelevant mr false true txs st]
  · decide

/-- C2 (counterexample): on a block list consisting of a single empty trade
block, `FilterMA` emits one (zero-valued) filter point, while the claim says
a leading empty block emits nothing. -/
theorem filterMA_leading_empty_emits_point :
    (FilterMA (fun _ => 0) [{ TimeStamp := 1000000000, Trades := [] }]).length = 1
    ∧ FilterMA (fun _ => 0) [{ TimeStamp := 1000000000, Trades := [] }] ≠ [] := by
  constructor
  · rfl
  · decide

/-- C2 (amended): only `FilterVWAPIR` and `FilterMEDIR` emit nothing for
leading empty blocks — for them, when every non-empty block's computed value
is positive, the number of points is the number of blocks minus the leading
empty prefix (hence at most the number of blocks). `FilterMA` instead emits
one point for every block, including leading empty ones (a zero-valued
carried point), and `FilterMAIR`/`FilterVWAP` dereference a nil `lastfp`
pointer on a leading empty block. -/
theorem filters_leading_empty_amended :
    (∀ (v : Block → ℚ) (bs : List Block),
        (∀ b ∈ bs, b.Trades.isEmpty = false → 0 < v b) →
        (FilterVWAPIR v bs).length = bs.length - leadEmptyLen bs
        ∧ (FilterMEDIR v bs).length = bs.length - leadEmptyLen bs)
    ∧ (∀ (v : Block → ℚ) (bs : List Block), (FilterMA v bs).length = bs.length)
    ∧ (∀ (v : Block → ℚ) (b : Block) (bs : List Block), b.Trades = [] →
        FilterMAIR v (b :: bs) = none ∧ FilterVWAP v (b :: bs) = none) := by
  refine ⟨?_, ?_, ?_⟩
  · intro v bs h
    exact ⟨filterGuardedCarry_length v bs h, filterGuardedCarry_length v bs h⟩
  · intro v bs
    simpa using filterMAGo_length v bs [] zeroFilterPoint
  · intro v b bs h
    have hbe : b.Trades.isEmpty = true := by simp [h]
    constructor <;> simp [FilterMAIR, FilterVWAP, filterNilCarryGo, hbe]

/-- Witness for the amended C2 statement at concrete inputs: one leading
empty block followed by one non-empty block yields exactly one point under
`FilterVWAPIR`. -/
theorem filters_leading_empty_amended_witness :
    (FilterVWAPIR (fun _ => 1)
        [{ TimeStamp := 1000000000, Trades := [] },
         { TimeStamp := 2000000000,
           Trades := [{ price := 3, volume := 1, time := 2 }] }]).length = 1 := by
  have h := filters_leading_empty_amended.1 (fun _ => 1)
    [{ TimeStamp := 1000000000, Trades := [] },
     { TimeStamp := 2000000000, Trades := [{ price := 3, volume := 1, time := 2 }] }]
    (fun b _ _ => one_pos)
  exact h.1.trans (by decide)

/-- C3: `processTx` with a receipt yielding zero or more than one parsed
ERC-721 transfer returns `ok` with `skipped = true` and emits no trade
(provided it reaches the transfer scan: decode, fetch, pending, receipt and
currency resolution succeed); conversely any call that emits a trade parsed
exactly one transfer and reported `skipped = false`; and the acquisition loop
advances the cursor past an `ok`-skipped transaction with nothing emitted and
no error. -/
theorem processTx_transfer_skip_policy :
    (∀ env : TxEnv, env.decodeOk = true → env.txFetchOk = true →
        env.pending = false → env.receiptOk = true →
        (env.currencyIsZero = true ∨ env.erc20Ok = true) →
        env.transfers.length ≠ 1 →
        processTx env = .ok (true, none))
    ∧ (∀ (env : TxEnv) (s : Bool) (t : TransferSim),
        processTx env = .ok (s, some t) → env.transfers.length = 1 ∧ s = false)
    ∧ (∀ (conf : X2Y2Conf) (st : X2Y2State) (tx : SimTx), tx.outcome = .ok true →
        (fetchLoop conf [tx] st).emitted = []
        ∧ (fetchLoop conf [tx] st).isErr = false
        ∧ (fetchLoop conf [tx] st).state.LastBlockNum = tx.blockNum
        ∧ (fetchLoop conf [tx] st).state.LastTxIndex = tx.txIndex + 1) := by
  refine ⟨?_, ?_, ?_⟩
  · intro env h1 h2 h3 h4 h5 h6
    have hlen : env.transfers.length = 0 ∨ 1 < env.transfers.length := by omega
    obtain ⟨d, f, p, r, c, e, ts, pk, nk⟩ := env
    simp only at h1 h2 h3 h4 h5 hlen
    subst h1; subst h2; subst h3; subst h4
    have hce : (!c && !e) = false := by
      rcases h5 with h5 | h5 <;> subst h5 <;> simp
    rcases hlen with h | h
    · simp [processTx, hce, h]
    · have h0 : ¬ ts.length = 0 := by omega
      simp [processTx, hce, h, h0]
  · intro env s t h
    simp only [processTx] at h
    repeat' split at h
    all_goals simp_all
    all_goals
      (have hne : env.transfers ≠ [] := by assumption
       have hpos := List.length_pos.mpr hne
       omega)
  · intro conf st tx htx
    simp [fetchLoop, htx]

/-- Witness for C3 at concrete inputs: an otherwise-successful environment
with zero parsed transfers is skipped, and the loop moves the cursor past an
`ok`-skipped transaction. -/
theorem processTx_transfer_skip_policy_witness :
    processTx { decodeOk := true, txFetchOk := true, pending := false,
                receiptOk := true, currencyIsZero := true, erc20Ok := false,
                transfers := [], priceOk := true, notifyOk := true }
        = .ok (true, none)
    ∧ (fetchLoop ⟨5, true⟩ [⟨7, 3, .ok true⟩] ⟨1, 0, "", 0⟩).state.LastTxIndex = 4 := by
  constructor
  · exact processTx_transfer_skip_policy.1 _ rfl rfl rfl rfl (Or.inl rfl) (by decide)
  · exact (processTx_transfer_skip_policy.2.2 ⟨5, true⟩ ⟨1, 0, "", 0⟩
      ⟨7, 3, .ok true⟩ rfl).2.2.2

/-- C4 (counterexample): a tick whose batch is a successful transaction
followed by one that fails within the retry budget persists
`count_of_error = 1`, although the tick contained a successful `processTx`
(it emitted a trade for the first transaction). -/
theorem fetchTrades_errCounter_after_success_cex :
    (fetchTradesTick ⟨1, true⟩ ⟨100, 0, "", 0⟩
        [⟨100, 0, .ok false⟩, ⟨100, 5, .fail⟩] 100).state.ErrCounter = 1
    ∧ (fetchTradesTick ⟨1, true⟩ ⟨100, 0, "", 0⟩
        [⟨100, 0, .ok false⟩, ⟨100, 5, .fail⟩] 100).emitted
        = [⟨100, 0, .ok false⟩] := by decide

/-- C4 (amended): `count_of_error` is 0 after any tick that processed a
non-empty batch and returned without error; a failure at the current cursor
within the retry budget increments the persisted counter and leaves the
cursor on the failing transaction, while any advance (successful `processTx`
or permanent skip) resets the counter to 0. -/
theorem fetchTrades_errCounter_amended :
    (∀ (conf : X2Y2Conf) (st : X2Y2State) (txs : List SimTx) (lb : Nat),
        txs ≠ [] → (fetchTradesTick conf st txs lb).isErr = false →
        (fetchTradesTick conf st txs lb).state.ErrCounter = 0)
    ∧ (∀ (conf : X2Y2Conf) (st : X2Y2State) (tx : SimTx), tx.outcome = .fail →
        st.ErrCounter + 1 ≤ conf.MaxRetry →
        (fetchLoop conf [tx] st).isErr = true
        ∧ (fetchLoop conf [tx] st).state.ErrCounter = st.ErrCounter + 1
        ∧ (fetchLoop conf [tx] st).state.LastBlockNum = tx.blockNum
        ∧ (fetchLoop conf [tx] st).state.LastTxIndex = tx.txIndex) := by
  constructor
  · intro conf st txs lb hne hok
    simp only [fetchTradesTick] at hok ⊢
    by_cases he : (fetchLoop conf txs st).isErr = true
    · rw [if_pos he] at hok
      rw [he] at hok
      exact absurd hok (by simp)
    · rw [if_neg he] at hok ⊢
      simp only at hok ⊢
      exact fetchLoop_ok_errCounter conf txs st hne (by simpa using he)
  · intro conf st tx htx hle
    simp [fetchLoop, htx, if_pos hle]

/-- Witness for the amended C4 statement at concrete inputs. -/
theorem fetchTrades_errCounter_amended_witness :
    (fetchTradesTick ⟨5, true⟩ ⟨1, 0, "", 0⟩ [⟨1, 0, .ok false⟩] 1).state.ErrCounter = 0
    ∧ (fetchLoop ⟨2, false⟩ [⟨1, 2, .fail⟩] ⟨1, 2, "", 0⟩).state.ErrCounter = 0 + 1 := by
  constructor
  · exact fetchTrades_errCounter_amended.1 ⟨5, true⟩ ⟨1, 0, "", 0⟩
      [⟨1, 0, .ok false⟩] 1 (by decide) (by decide)
  · exact (fetchTrades_errCounter_amended.2 ⟨2, false⟩ ⟨1, 2, "", 0⟩
      ⟨1, 2, .fail⟩ rfl (by decide)).2.1

/-- C5: when `code_at` is monotone with a boundary at block `b` (`1 ≤ b ≤
head`, code present at `b`, absent at `b - 1`), the binary-search loop of
`findContractCreationInfo` terminates within `head + 1` iterations and
selects exactly `b`; and when no transaction of the selected block carries a
receipt whose contract address equals the target, the function returns the
zero-valued creator and creation time with no error. -/
theorem findContractCreationInfo_correct (head b : Nat) (codeAt : Nat → Bool)
    (blockTxs : Nat → List BlockTxSim) (blockTime : Nat → Int) (target : Nat)
    (hmono : ∀ x y, x ≤ y → codeAt x = true → codeAt y = true)
    (hb : codeAt b = true) (hb0 : codeAt (b - 1) = false)
    (hb1 : 1 ≤ b) (hbh : b ≤ head)
    (hnomatch : ∀ t ∈ blockTxs b, ¬(t.toIsNil = true ∧ t.receiptContract = target)) :
    bsearchLoop codeAt (head + 1) 0 head = some b
    ∧ findContractCreationInfo true head codeAt blockTxs blockTime target (head + 1)
        = some (0, 0) := by
  have hchar := codeAt_boundary_char hmono hb hb0 hb1
  have hfind : bsearchLoop codeAt (head + 1) 0 head = some b :=
    bsearchLoop_finds hchar head 0 head (by omega) hbh (by omega)
  refine ⟨hfind, ?_⟩
  simp only [findContractCreationInfo, Bool.not_true, Bool.false_eq_true,
    if_false, hfind, findCreationInBlock]
  rw [List.find?_eq_none.mpr]
  intro t ht
  simp only [Bool.and_eq_true, beq_iff_eq]
  intro hcontra
  exact hnomatch t ht ⟨hcontra.1, hcontra.2⟩

/-- Witness for C5 at concrete inputs: code appears at block 5 of a 8-block
chain, and the selected block's only transaction is not a creation
transaction for the target. -/
theorem findContractCreationInfo_correct_witness :
    bsearchLoop (fun x => decide (5 ≤ x)) 9 0 8 = some 5
    ∧ findContractCreationInfo true 8 (fun x => decide (5 ≤ x))
        (fun _ => [{ toIsNil := false, receiptContract := 7, sender := 3 }])
        (fun _ => 99) 7 9 = some (0, 0) :=
  findContractCreationInfo_correct 8 5 (fun x => decide (5 ≤ x))
    (fun _ => [{ toIsNil := false, receiptContract := 7, sender := 3 }])
    (fun _ => 99) 7
    (fun x y hxy hx => by
      simp only [decide_eq_true_eq] at hx ⊢
      omega)
    (by decide) (by decide) (by decide) (by decide) (by decide)

/-- C6 (counterexample): `getSwapDataDforce` on a swap of 1 input unit for 2
output units (decimals 0 on both sides) returns `(price, volume) = (1/2, 2)`,
not the claimed `(to/from, from) = (2, 1)`. -/
theorem getSwapDataDforce_convention_cex :
    ¬(getSwapDataDforce 1 2 0 0 = ((2 : ℚ) / 1, (1 : ℚ))) := by
  simp only [getSwapDataDforce, Prod.ext_iff, not_and]
  intro h1
  norm_num

/-- C6 (amended): the Bancor adapter's `getSwapData` follows the convention
`price = to_amount / from_amount`, `volume = from_amount` (equivalently
`price * volume = to_amount` for nonzero `from_amount`), the amounts being
the decimal-normalized ones of `normalizeSwap`; the Dforce adapter's
`getSwapDataDforce` instead returns `volume = to_amount` and
`price = from_amount / to_amount` (so `price * volume = from_amount`), each
amount normalized by its token's decimals. -/
theorem swap_price_volume_amended :
    (∀ s : BancorSwapSim, s.FromAmount ≠ 0 →
        (getSwapData s).1 * (getSwapData s).2 = s.ToAmount
        ∧ (getSwapData s).2 = s.FromAmount)
    ∧ (∀ (fromRaw toRaw : ℤ) (fd td : Nat),
        getSwapData (normalizeSwap fromRaw toRaw fd td)
          = ((((toRaw : ℚ) / 10 ^ td)) / ((fromRaw : ℚ) / 10 ^ fd),
             (fromRaw : ℚ) / 10 ^ fd))
    ∧ (∀ (i o : ℤ) (sd bd : Nat), o ≠ 0 →
        (getSwapDataDforce i o sd bd).1 * (getSwapDataDforce i o sd bd).2
          = (i : ℚ) / 10 ^ sd
        ∧ (getSwapDataDforce i o sd bd).2 = (o : ℚ) / 10 ^ bd) := by
  refine ⟨?_, ?_, ?_⟩
  · intro s h
    exact ⟨div_mul_cancel₀ s.ToAmount h, rfl⟩
  · intro fromRaw toRaw fd td
    rfl
  · intro i o sd bd h
    have h1 : ((o : ℚ) / 10 ^ bd) ≠ 0 := by
      apply div_ne_zero
      · exact_mod_cast h
      · positivity
    exact ⟨div_mul_cancel₀ _ h1, rfl⟩

/-- Witness for the amended C6 statement at concrete inputs. -/
theorem swap_price_volume_amended_witness :
    (getSwapData { FromAmount := 2, ToAmount := 6 }).1
        * (getSwapData { FromAmount := 2, ToAmount := 6 }).2 = 6
    ∧ (getSwapDataDforce 1 2 0 0).2 = ((2 : ℤ) : ℚ) / 10 ^ 0 := by
  constructor
  · exact (swap_price_volume_amended.1 { FromAmount := 2, ToAmount := 6 }
      (by norm_num)).1
  · exact (swap_price_volume_amended.2.2 1 2 0 0 (by decide)).2

/-- C7: for every `data:` token URI whose payload decodes and is a valid JSON
object, `readNFTAttr` returns the error produced by `json.Unmarshal` on a
non-pointer map target — the decoded pairs are never returned — whereas the
HTTP branch, which passes a pointer, does return them. -/
theorem readNFTAttr_dataUri_unmarshal_error :
    (∀ kvs : List (String × String),
        readNFTAttr (.dataUri true true kvs)
          = .error "json: Unmarshal(non-pointer map)")
    ∧ (∀ kvs : List (String × String),
        readNFTAttr (.httpUri true 200 true kvs) = .ok (some kvs)) := by
  constructor <;> intro kvs <;> rfl

/-- Witness for C7 at a concrete `data:` payload. -/
theorem readNFTAttr_dataUri_unmarshal_error_witness :
    readNFTAttr (.dataUri true true [("name", "x")])
      = .error "json: Unmarshal(non-pointer map)" :=
  readNFTAttr_dataUri_unmarshal_error.1 [("name", "x")]

/-- C8: `FilterVWAP` on three blocks — trades, empty, trades — emits exactly
three points: the point for the empty middle block equals the first block's
point with only its `Time` rewritten to the middle block's timestamp, and the
first appended point keeps the first block's timestamp (appending `*fp`
copies the struct, so the later `lastfp.Time` mutation does not retroactively
change it). -/
theorem filterVWAP_carry_three_blocks (v : Block → ℚ) (B1 B2 B3 : Block)
    (h1 : B1.Trades.isEmpty = false) (h2 : B2.Trades.isEmpty = true)
    (h3 : B3.Trades.isEmpty = false) :
    FilterVWAP v [B1, B2, B3] =
      some [mkBlockPoint v B1,
            { mkBlockPoint v B1 with Time := blockTimeSec B2 },
            mkBlockPoint v B3] := by
  simp [FilterVWAP, filterNilCarryGo, h1, h2, h3]

/-- Witness for C8 at concrete blocks: the middle point carries the first
block's value `7` but the middle block's (second-granularity) timestamp `2`,
while the first point keeps timestamp `1`. -/
theorem filterVWAP_carry_three_blocks_witness :
    FilterVWAP (fun _ => 7)
        [{ TimeStamp := 1000000000, Trades := [{ price := 2, volume := 1, time := 1 }] },
         { TimeStamp := 2000000000, Trades := [] },
         { TimeStamp := 3000000000, Trades := [{ price := 4, volume := 1, time := 3 }] }]
      = some
          [{ Value := 7, Time := 1, FirstTrade := { price := 2, volume := 1, time := 1 },
             LastTrade := { price := 2, volume := 1, time := 1 } },
           { Value := 7, Time := 2, FirstTrade := { price := 2, volume := 1, time := 1 },
             LastTrade := { price := 2, volume := 1, time := 1 } },
           { Value := 7, Time := 3, FirstTrade := { price := 4, volume := 1, time := 3 },
             LastTrade := { price := 4, volume := 1, time := 3 } }] := by
  have h := filterVWAP_carry_three_blocks (fun _ => 7)
    { TimeStamp := 1000000000, Trades := [{ price := 2, volume := 1, time := 1 }] }
    { TimeStamp := 2000000000, Trades := [] }
    { TimeStamp := 3000000000, Trades := [{ price := 4, volume := 1, time := 3 }] }
    rfl rfl rfl
  refine h.trans ?_
  simp only [mkBlockPoint, blockTimeSec]
  norm_num

/-- C9 (counterexample): after a completed first `BancorScraper.Close` (which
leaves the `shutdown` channel closed), a second call does not return an
already-closed error — it reaches `close(scraper.shutdown)` on the closed
channel, a runtime panic. -/
theorem bancorClose_second_call_panics_cex :
    BancorClose { closed := false, shutdownClosed := false }
      = some ({ closed := true, shutdownClosed := true }, none)
    ∧ BancorClose { closed := true, shutdownClosed := true } = none := by decide

/-- C9 (amended): one `close()` is safe on all three adapters; a second
`ZBScraper.Close` returns "ZBScraper: Already closed", and a second
`X2Y2Scraper.Close` issued after the producer's deferred cleanup has run
returns "scraper already closed"; `BancorScraper.Close`, however, has no
already-closed guard, so a second call closes the already-closed shutdown
channel (a panic) instead of returning an error. -/
theorem close_second_call_amended :
    (∀ (err : Option String) (s : ScraperLife), s.closed = false →
        s.shutdownClosed = false →
        ZBClose err s = some ({ closed := true, shutdownClosed := true }, err))
    ∧ (∀ (err : Option String) (s : ScraperLife), s.closed = true →
        ZBClose err s = some (s, some "ZBScraper: Already closed"))
    ∧ (∀ s : ScraperLife, s.closed = false → s.shutdownClosed = false →
        X2Y2Close s = some ({ s with shutdownClosed := true }, none)
        ∧ X2Y2Close (X2Y2MainLoopExit { s with shutdownClosed := true })
            = some (X2Y2MainLoopExit { s with shutdownClosed := true },
                some "scraper already closed"))
    ∧ (BancorClose { closed := false, shutdownClosed := false }
        = some ({ closed := true, shutdownClosed := true }, none)
      ∧ BancorClose { closed := true, shutdownClosed := true } = none) := by
  refine ⟨?_, ?_, ?_, by decide⟩
  · intro err s h1 h2
    obtain ⟨c, sc⟩ := s
    simp only at h1 h2
    subst h1; subst h2
    rfl
  · intro err s h1
    obtain ⟨c, sc⟩ := s
    simp only at h1
    subst h1
    rfl
  · intro s h1 h2
    obtain ⟨c, sc⟩ := s
    simp only at h1 h2
    subst h1; subst h2
    exact ⟨rfl, rfl⟩

/-- Witness for the amended C9 statement at concrete lifecycle states. -/
theorem close_second_call_amended_witness :
    ZBClose none { closed := true, shutdownClosed := true }
      = some ({ closed := true, shutdownClosed := true },
          some "ZBScraper: Already closed")
    ∧ X2Y2Close (X2Y2MainLoopExit { closed := false, shutdownClosed := true })
        = some (X2Y2MainLoopExit { closed := false, shutdownClosed := true },
            some "scraper already closed") := by
  constructor
  · exact close_second_call_amended.2.1 none ⟨true, true⟩ rfl
  · exact (close_second_call_amended.2.2.1 ⟨false, false⟩ rfl rfl).2

/-- C10: `GetPair` on `[a0, sentinel]` with `a0` not the sentinel: the second
sentinel branch overwrites `address[0]` instead of `address[1]`, so the
returned base token keeps the sentinel address (with symbol "WETH") and the
quote token's address is clobbered to the WETH address instead of staying
`a0`. -/
theorem getPair_second_sentinel_misassigns (symbolOf : String → String)
    (exchangeName a0 : String) (h : a0 ≠ sentinelAddr) :
    GetPair symbolOf exchangeName a0 sentinelAddr =
      { ForeignName := symbolOf a0 ++ "-" ++ "WETH"
        Symbol := symbolOf a0
        Exchange := exchangeName
        BaseToken := { Symbol := "WETH", Address := sentinelAddr }
        QuoteToken := { Symbol := symbolOf a0, Address := wethAddr } } := by
  simp [GetPair, h]

/-- Witness for C10 at a concrete address pair. -/
theorem getPair_second_sentinel_misassigns_witness :
    GetPair (fun _ => "TKN") "Bancor" "0xA" sentinelAddr =
      { ForeignName := "TKN-WETH", Symbol := "TKN", Exchange := "Bancor",
        BaseToken := { Symbol := "WETH", Address := sentinelAddr },
        QuoteToken := { Symbol := "TKN", Address := wethAddr } } :=
  (getPair_second_sentinel_misassigns (fun _ => "TKN") "Bancor" "0xA"
    (by decide)).trans (by decide)

end Dia
